import Mathlib

/-!
# Verification of the blog application's post identity and content-access model

Shallow embedding of the repository's `media/models.py`, `media/views.py` and
`media/blog_tags.py`. Posts, comments and likes are rows in explicit lists;
the Django ORM query pieces used by the code (filter, existence test,
get-or-create, ordering) become list operations; each view function becomes a
Lean function from a database state and request data to an outcome and a new
state.
-/

namespace Blog

/-- A row of the `Post` table (`models.py`, class `Post`).  `authorId` stands
for the `author` foreign key, `created_at` is the creation timestamp
(`auto_now_add`), `tags` the set of tag ids from the taggit many-to-many
relation, and `status` the string stored by the `status` CharField
(`draft` or `published`). -/
structure Post where
  id : Nat
  title : String
  slug : String
  authorId : Nat
  content : String
  status : String
  created_at : Nat
  tags : List Nat
deriving DecidableEq, Repr

/-- A row of the `Comment` table (`models.py`, class `Comment`). -/
structure Comment where
  postId : Nat
  userId : Nat
  body : String
  created_at : Nat
deriving DecidableEq, Repr

/-- A row of the taggit `Tag` table: a label with its own slug. -/
structure Tag where
  id : Nat
  slug : String
deriving DecidableEq, Repr

/-- The relational store.  A `Like` row (`models.py`, class `Like`) is a
`(postId, userId)` pair, kept as a plain pair since it has no other fields. -/
structure BlogDB where
  posts : List Post
  likes : List (Nat × Nat)
  comments : List Comment
  tags : List Tag
deriving DecidableEq, Repr

/-- The viewer of a request: `none` is the anonymous user
(`request.user.is_authenticated` false), `some u` an authenticated user id. -/
abbrev Viewer := Option Nat

/-! ## Slugify (`django.utils.text.slugify`, called by `Post.save`)

`slugify(title)` ASCII-folds the text, lowercases it, deletes every character
that is not a word character, whitespace or hyphen, collapses each run of
whitespace/hyphens to a single hyphen, and strips hyphens/underscores from both
ends.  We model the ASCII fold as dropping non-ASCII characters (the NFKD +
ascii-ignore step of the source; exact on ASCII input, which is all the claims
use). -/

/-- A word character (the regex class of the source) after lowercasing:
letters, digits, underscore. -/
def isWordChar (c : Char) : Bool := c.isAlphanum || c == '_'

/-- A character merged by the `[-\s]+` collapsing step. -/
def isSpaceOrDash (c : Char) : Bool := c == '-' || c.isWhitespace

/-- Replace every maximal run of whitespace/hyphens by a single hyphen
(the `re.sub(r"[-\s]+", "-", value)` step). -/
def collapseDashes : List Char → List Char
  | [] => []
  | [c] => if isSpaceOrDash c then ['-'] else [c]
  | c1 :: c2 :: rest =>
    if isSpaceOrDash c1 then
      if isSpaceOrDash c2 then collapseDashes (c2 :: rest)
      else '-' :: collapseDashes (c2 :: rest)
    else c1 :: collapseDashes (c2 :: rest)

/-- A character removed from the ends by `.strip("-_")`. -/
def isStripChar (c : Char) : Bool := c == '-' || c == '_'

/-- Drop `-` and `_` from both ends (the `.strip("-_")` step). -/
def stripEnds (l : List Char) : List Char :=
  ((l.dropWhile isStripChar).reverse.dropWhile isStripChar).reverse

/-- The function `django.utils.text.slugify` on ASCII text. -/
def slugify (s : String) : String :=
  let ascii := s.data.filter (fun c => c.toNat < 128)
  let lowered := ascii.map Char.toLower
  let kept := lowered.filter (fun c => isWordChar c || c.isWhitespace || c == '-')
  String.mk (stripEnds (collapseDashes kept))

/-! ## Slug assignment (`Post.save`, models.py lines 27-36)

The saving loop starts with `slug_candidate = base_slug`, `counter = 1`, and
while the candidate is taken sets `counter += 1` and
`slug_candidate` to the base slug, a hyphen and the counter.  The source loop is unbounded; we
give it fuel and return `none` when the fuel runs out, so every theorem about a
found slug carries the hypothesis that the loop terminated. -/

/-- One run of the `while Post.objects.filter(slug=slug_candidate).exists()`
loop: `existing` is the set of slugs present in storage. -/
def slugLoop (base : String) (existing : List String) :
    Nat → String → Nat → Option String
  | 0, _, _ => none
  | fuel + 1, cand, counter =>
    if cand ∈ existing then
      slugLoop base existing fuel (base ++ "-" ++ toString (counter + 1)) (counter + 1)
    else
      some cand

/-- The slug computed by `Post.save` for a post whose `slug` field is still
empty: the slugified title if unused, else the first unused
`base-2`, `base-3`, … candidate. -/
def assignSlug (title : String) (existing : List String) : Option String :=
  let base := slugify title
  slugLoop base existing (existing.length + 1) base 1

/-- The method `Post.save`: if `self.slug` is falsy (the empty string) run the
slug-assignment loop against every slug currently in storage, then persist
(insert a new row, or overwrite the row with the same primary key).
Returns the saved post and the new store, or `none` if the probe loop's fuel
ran out. -/
def postSave (db : BlogDB) (p : Post) : Option (Post × BlogDB) :=
  let slugResult :=
    if p.slug = "" then assignSlug p.title (db.posts.map (·.slug))
    else some p.slug
  match slugResult with
  | none => none
  | some s =>
    let p' := { p with slug := s }
    let posts' :=
      if db.posts.any (·.id == p.id) then
        db.posts.map (fun q => if q.id == p.id then p' else q)
      else
        db.posts ++ [p']
    some (p', { db with posts := posts' })

/-! ## Case-insensitive substring match (`icontains`) -/

/-- Whether `pat` begins `hay`. -/
def strStarts : List Char → List Char → Bool
  | [], _ => true
  | _ :: _, [] => false
  | p :: ps, h :: hs => p == h && strStarts ps hs

/-- Whether `pat` occurs contiguously somewhere in `hay`. -/
def strOccurs (pat : List Char) : List Char → Bool
  | [] => pat.isEmpty
  | c :: hs => strStarts pat (c :: hs) || strOccurs pat hs

/-- The characters of a string, lowercased (the `LOWER(...)` both sides of
the ORM's `icontains` comparison). -/
def lowerData (s : String) : List Char := s.data.map Char.toLower

/-- The ORM `icontains` lookup: case-insensitive substring test. -/
def icontains (hay pat : String) : Bool :=
  strOccurs (lowerData pat) (lowerData hay)

/-! ## Ordering (`Post.Meta.ordering = ['-created_at']` and the explicit
`order_by('-created_at')` calls): newest post first. -/

/-- Whether `a` may come before `b` in a listing: `a` is at least as recent. -/
def newestFirst (a b : Post) : Prop := b.created_at ≤ a.created_at

instance : DecidableRel newestFirst := fun a b => Nat.decLe b.created_at a.created_at

instance : IsTotal Post newestFirst := ⟨fun a b => Nat.le_total b.created_at a.created_at⟩

instance : IsTrans Post newestFirst := ⟨fun _ _ _ h1 h2 => Nat.le_trans h2 h1⟩

/-- The ordering the storage layer applies to a post queryset. -/
def orderByCreatedDesc (l : List Post) : List Post := List.insertionSort newestFirst l

/-! ## Listing querysets (views.py) -/

/-- The queryset of `PostListView.get_queryset` (views.py lines 19-26): published posts,
optionally narrowed by `Q(title__icontains=query) | Q(content__icontains=query)`
when the `q` parameter is present and non-empty (`if query:`). -/
def postListQueryset (db : BlogDB) (q : Option String) : List Post :=
  let base := (db.posts.filter (fun p => p.status == "published"))
  let filtered :=
    match q with
    | none => base
    | some query =>
      if query = "" then base
      else base.filter (fun p => icontains p.title query || icontains p.content query)
  orderByCreatedDesc filtered

/-- The queryset of `TagListView.get_queryset` (views.py lines 39-42): look the tag up by its
slug (404 when absent, modelled as `none`), then the published posts carrying
that tag. -/
def tagListQueryset (db : BlogDB) (tagSlug : String) : Option (List Post) :=
  match db.tags.find? (fun t => t.slug == tagSlug) with
  | none => none
  | some tag =>
    some (orderByCreatedDesc
      (db.posts.filter (fun p => p.status == "published" && p.tags.contains tag.id)))

/-- Number of likes of a post (`post.likes.count()` / the dashboard's
`Count('likes')` annotation). -/
def likeCount (db : BlogDB) (postId : Nat) : Nat :=
  (db.likes.filter (fun l => l.1 == postId)).length

/-- The dashboard listing of `DashboardView.get_context_data` (views.py lines 120-125): the current
user's own posts, no status filter, newest first. -/
def dashboardPosts (db : BlogDB) (u : Nat) : List Post :=
  orderByCreatedDesc (db.posts.filter (fun p => p.authorId == u))

/-- The `recent_posts` template tag (blog_tags.py lines 8-10): published posts,
newest first, truncated to `limit`. -/
def recent_posts (db : BlogDB) (limit : Nat) : List Post :=
  (orderByCreatedDesc (db.posts.filter (fun p => p.status == "published"))).take limit

/-! ## Detail view (`post_detail`, views.py lines 49-82) -/

/-- What `post_detail` hands back to the presentation layer. -/
inductive DetailOutcome
  | notFound
  | redirectPostList (msg : String)
  | redirectLogin (msg : String)
  | commentAdded (slug : String)
  | rendered (slug : String) (liked : Bool) (like_count : Nat)
deriving DecidableEq, Repr

/-- Modelled from the spec: `CommentForm.is_valid()` lives in the
repository's `forms.py`, which is not among the provided sources; §4.3 of the
design says the form "validates body is present/non-empty". -/
def commentFormValid (body : String) : Bool := body ≠ ""

/-- The view `post_detail(request, slug)`: look the post up by slug (404 when absent);
drafts redirect every viewer but the author to the post list with a warning;
a POST from an anonymous viewer redirects to login; a valid POSTed comment is
stored and the request redirected to the post's canonical URL; otherwise the
page renders with the viewer's like state and the post's like count.
`isPost` is true for a POST request, and `body` the submitted comment body. -/
def post_detail (db : BlogDB) (slug : String) (viewer : Viewer)
    (isPost : Bool) (body : String) : DetailOutcome × BlogDB :=
  match db.posts.find? (fun p => p.slug == slug) with
  | none => (.notFound, db)
  | some post =>
    if post.status ≠ "published" ∧ viewer ≠ some post.authorId then
      (.redirectPostList "This post is not published.", db)
    else
      let liked :=
        match viewer with
        | none => false
        | some u => db.likes.contains (post.id, u)
      if isPost then
        match viewer with
        | none => (.redirectLogin "Login required to comment.", db)
        | some u =>
          if commentFormValid body then
            (.commentAdded post.slug,
             { db with comments := db.comments ++ [⟨post.id, u, body, 0⟩] })
          else
            (.rendered post.slug liked (likeCount db post.id), db)
      else
        (.rendered post.slug liked (likeCount db post.id), db)

/-! ## Like toggle (`like_post`, views.py lines 127-139) -/

/-- What `like_post` hands back: 404, the login redirect, or the redirect to
the post's detail page together with the feedback message chosen by the
toggle's resulting state. -/
inductive LikeOutcome
  | notFound
  | redirectLogin (msg : String)
  | liked (slug : String)
  | unliked (slug : String)
deriving DecidableEq, Repr

/-- The view `like_post(request, slug)`: look the post up by slug (404 when absent),
require authentication, then `get_or_create` the `(post, user)` like — when it
already existed, delete it ("Like removed."), otherwise keep the created row
("Post liked.") — and redirect to the post's detail page. -/
def like_post (db : BlogDB) (slug : String) (viewer : Viewer) :
    LikeOutcome × BlogDB :=
  match db.posts.find? (fun p => p.slug == slug) with
  | none => (.notFound, db)
  | some post =>
    match viewer with
    | none => (.redirectLogin "Login required to like posts.", db)
    | some u =>
      if (post.id, u) ∈ db.likes then
        (.unliked post.slug,
         { db with likes := db.likes.filter (fun l => l ≠ (post.id, u)) })
      else
        (.liked post.slug, { db with likes := db.likes ++ [(post.id, u)] })

/-- The like-state of a `(post, user)` pair: whether a Like row exists. -/
def likeState (db : BlogDB) (postId u : Nat) : Prop := (postId, u) ∈ db.likes

instance (db : BlogDB) (postId u : Nat) : Decidable (likeState db postId u) :=
  inferInstanceAs (Decidable ((postId, u) ∈ db.likes))

/-- The visibility policy of §4.2, written from the spec's words for
comparison with `post_detail`: a published post is visible to anyone, a draft
only to its author. -/
def can_view (post : Post) (viewer : Viewer) : Prop :=
  post.status = "published" ∨ viewer = some post.authorId

instance (post : Post) (viewer : Viewer) : Decidable (can_view post viewer) :=
  inferInstanceAs (Decidable (_ ∨ _))

/-- The spec's notion of case-insensitive substring: the lowercased needle
occurs contiguously inside the lowercased haystack. -/
def lowerSubstring (needle hay : String) : Prop :=
  ∃ pre suf, lowerData hay = pre ++ lowerData needle ++ suf

/-! ## Helper lemmas -/

theorem strStarts_iff (pat : List Char) :
    ∀ hay, strStarts pat hay = true ↔ ∃ suf, hay = pat ++ suf := by
  induction pat with
  | nil =>
    intro hay
    simp [strStarts]
  | cons p ps ih =>
    intro hay
    cases hay with
    | nil =>
      simp [strStarts]
    | cons h hs =>
      simp only [strStarts, Bool.and_eq_true, beq_iff_eq, ih hs, List.cons_append,
        List.cons.injEq]
      constructor
      · rintro ⟨rfl, suf, rfl⟩
        exact ⟨suf, rfl, rfl⟩
      · rintro ⟨suf, rfl, rfl⟩
        exact ⟨rfl, suf, rfl⟩

theorem strOccurs_iff (pat : List Char) :
    ∀ hay, strOccurs pat hay = true ↔ ∃ pre suf, hay = pre ++ pat ++ suf := by
  intro hay
  induction hay with
  | nil =>
    simp only [strOccurs, List.isEmpty_iff]
    constructor
    · rintro rfl
      exact ⟨[], [], rfl⟩
    · rintro ⟨pre, suf, he⟩
      rcases List.append_eq_nil.mp (List.append_eq_nil.mp he.symm).1 with ⟨-, h2⟩
      exact h2
  | cons c hs ih =>
    simp only [strOccurs, Bool.or_eq_true, strStarts_iff, ih]
    constructor
    · rintro (⟨suf, he⟩ | ⟨pre, suf, rfl⟩)
      · exact ⟨[], suf, by simpa using he⟩
      · exact ⟨c :: pre, suf, rfl⟩
    · rintro ⟨pre, suf, he⟩
      cases pre with
      | nil =>
        exact Or.inl ⟨suf, by simpa using he⟩
      | cons x xs =>
        rcases (List.cons.injEq _ _ _ _).mp he with ⟨-, h2⟩
        exact Or.inr ⟨xs, suf, h2⟩

theorem icontains_iff (hay pat : String) :
    icontains hay pat = true ↔ lowerSubstring pat hay := by
  unfold icontains lowerSubstring
  constructor
  · intro h
    rcases (strOccurs_iff _ _).mp h with ⟨pre, suf, he⟩
    exact ⟨pre, suf, he⟩
  · rintro ⟨pre, suf, he⟩
    exact (strOccurs_iff _ _).mpr ⟨pre, suf, he⟩

theorem slugLoop_not_mem (base : String) (existing : List String) :
    ∀ (fuel : Nat) (cand : String) (counter : Nat) (s : String),
      slugLoop base existing fuel cand counter = some s → s ∉ existing := by
  intro fuel
  induction fuel with
  | zero =>
    intro cand counter s h
    simp [slugLoop] at h
  | succ n ih =>
    intro cand counter s h
    by_cases hc : cand ∈ existing
    · rw [slugLoop, if_pos hc] at h
      exact ih _ _ _ h
    · rw [slugLoop, if_neg hc] at h
      rw [← Option.some.injEq cand s |>.mp h]
      exact hc

theorem assignSlug_not_mem {t s : String} {ex : List String}
    (h : assignSlug t ex = some s) : s ∉ ex :=
  slugLoop_not_mem (slugify t) ex (ex.length + 1) (slugify t) 1 s h

theorem postListQueryset_none (db : BlogDB) :
    postListQueryset db none
      = orderByCreatedDesc (db.posts.filter (fun p => p.status == "published")) := rfl

theorem postListQueryset_some (db : BlogDB) (query : String) :
    postListQueryset db (some query)
      = orderByCreatedDesc
          (if query = ""
           then db.posts.filter (fun p => p.status == "published")
           else (db.posts.filter (fun p => p.status == "published")).filter
             (fun p => icontains p.title query || icontains p.content query)) := rfl

theorem mem_orderByCreatedDesc {a : Post} {l : List Post} :
    a ∈ orderByCreatedDesc l ↔ a ∈ l :=
  (List.perm_insertionSort newestFirst l).mem_iff

theorem sorted_orderByCreatedDesc (l : List Post) :
    List.Sorted newestFirst (orderByCreatedDesc l) :=
  List.sorted_insertionSort newestFirst l

theorem nodup_filter_eq_length {l : List (Nat × Nat)} (h : l.Nodup) (a : Nat × Nat) :
    (l.filter (fun x => x = a)).length ≤ 1 := by
  induction l with
  | nil => simp
  | cons x xs ih =>
    rcases List.nodup_cons.mp h with ⟨hx, hxs⟩
    by_cases hxa : x = a
    · subst hxa
      have hnil : xs.filter (fun y => y = x) = [] := by
        rw [List.filter_eq_nil_iff]
        intro b hb
        simp only [decide_eq_true_eq]
        intro hba
        exact hx (hba ▸ hb)
      simp [List.filter_cons, hnil]
    · simpa [List.filter_cons, hxa] using ih hxs

theorem post_detail_likes_unchanged (db : BlogDB) (s : String) (v : Viewer)
    (ip : Bool) (b : String) :
    (post_detail db s v ip b).2.likes = db.likes := by
  unfold post_detail
  rcases hf : db.posts.find? (fun p => p.slug == s) with - | P <;> simp only [hf]
  · by_cases hc : P.status ≠ "published" ∧ v ≠ some P.authorId
    · rw [if_pos hc]
    · rw [if_neg hc]
      cases ip with
      | false => rfl
      | true =>
        rcases v with - | u
        · rfl
        · by_cases hb : commentFormValid b = true <;> simp [hb]

theorem like_post_no_post (db : BlogDB) (s : String) (v : Viewer)
    (hf : db.posts.find? (fun p => p.slug == s) = none) :
    like_post db s v = (.notFound, db) := by
  unfold like_post
  simp [hf]

theorem like_post_anonymous (db : BlogDB) (s : String) (P : Post)
    (hf : db.posts.find? (fun p => p.slug == s) = some P) :
    like_post db s none = (.redirectLogin "Login required to like posts.", db) := by
  unfold like_post
  simp [hf]

theorem like_post_mem (db : BlogDB) (slug : String) (P : Post) (u : Nat)
    (hfind : db.posts.find? (fun p => p.slug == slug) = some P)
    (h : (P.id, u) ∈ db.likes) :
    like_post db slug (some u)
      = (.unliked P.slug,
         { db with likes := db.likes.filter (fun l => l ≠ (P.id, u)) }) := by
  unfold like_post
  simp only [hfind]
  rw [if_pos h]

theorem like_post_not_mem (db : BlogDB) (slug : String) (P : Post) (u : Nat)
    (hfind : db.posts.find? (fun p => p.slug == slug) = some P)
    (h : (P.id, u) ∉ db.likes) :
    like_post db slug (some u)
      = (.liked P.slug, { db with likes := db.likes ++ [(P.id, u)] }) := by
  unfold like_post
  simp only [hfind]
  rw [if_neg h]

theorem like_post_posts_unchanged (db : BlogDB) (s : String) (v : Viewer) :
    (like_post db s v).2.posts = db.posts := by
  rcases hf : db.posts.find? (fun p => p.slug == s) with - | P
  · rw [like_post_no_post db s v hf]
  · rcases v with - | u
    · rw [like_post_anonymous db s P hf]
    · by_cases h : (P.id, u) ∈ db.likes
      · rw [like_post_mem db s P u hf h]
      · rw [like_post_not_mem db s P u hf h]

theorem post_detail_no_post (db : BlogDB) (s : String) (v : Viewer) (ip : Bool)
    (b : String) (hf : db.posts.find? (fun p => p.slug == s) = none) :
    post_detail db s v ip b = (.notFound, db) := by
  unfold post_detail
  simp [hf]

/-! ## Sample fixtures used by witnesses and counterexamples -/

/-- A published post with one like (from user 9) and one tag. -/
def samplePost : Post := ⟨1, "Hello World", "hello-world", 7, "Lorem ipsum", "published", 10, [3]⟩

/-- A draft post by the same author. -/
def draftPost : Post := ⟨2, "Secret Notes", "secret-notes", 7, "draft body", "draft", 20, []⟩

/-- A small store: both posts, one like of the published post, one tag. -/
def sampleDB : BlogDB := ⟨[samplePost, draftPost], [(1, 9)], [], [⟨3, "tech"⟩]⟩

/-! ## Claims -/

/-- C1: two posts created sequentially with identical titles receive distinct
slugs; on a fresh store the title "My First Post!" yields "my-first-post" and
an identically titled second post yields "my-first-post-2" (the probe walks
-2, -3, … until an unused candidate is found, hence the termination
hypotheses on the unbounded source loop). -/
theorem slug_sequential_distinct (title : String) (ex : List String) (s1 s2 : String)
    (h1 : assignSlug title ex = some s1)
    (h2 : assignSlug title (ex ++ [s1]) = some s2) :
    s2 ≠ s1
    ∧ assignSlug "My First Post!" [] = some "my-first-post"
    ∧ assignSlug "My First Post!" ["my-first-post"] = some "my-first-post-2" := by
  refine ⟨?_, by decide, by decide⟩
  intro he
  subst he
  exact assignSlug_not_mem h2 (by simp)

theorem slug_sequential_distinct_witness :
    ("my-first-post-2" : String) ≠ "my-first-post"
    ∧ assignSlug "My First Post!" [] = some "my-first-post"
    ∧ assignSlug "My First Post!" ["my-first-post"] = some "my-first-post-2" :=
  slug_sequential_distinct "My First Post!" [] "my-first-post" "my-first-post-2"
    (by decide) (by decide)

/-- C2: the detail view shows a post exactly when it is published or the
viewer is its author; every other viewer of a draft gets the soft redirect to
the post list with the "not published" message. -/
theorem post_detail_visibility (db : BlogDB) (slug : String) (P : Post) (viewer : Viewer)
    (hfind : db.posts.find? (fun p => p.slug == slug) = some P) :
    ((∃ liked cnt, (post_detail db slug viewer false "").1
        = .rendered P.slug liked cnt) ↔ can_view P viewer)
    ∧ (¬ can_view P viewer →
        (post_detail db slug viewer false "").1
          = .redirectPostList "This post is not published.") := by
  unfold post_detail
  simp only [hfind]
  by_cases hv : can_view P viewer
  · have hc : ¬(P.status ≠ "published" ∧ viewer ≠ some P.authorId) := by
      rcases hv with h | h
      · exact fun hh => hh.1 h
      · exact fun hh => hh.2 h
    rw [if_neg hc]
    exact ⟨⟨fun _ => hv, fun _ => ⟨_, _, rfl⟩⟩, fun h => absurd hv h⟩
  · have hc : P.status ≠ "published" ∧ viewer ≠ some P.authorId := by
      unfold can_view at hv
      push_neg at hv
      exact hv
    rw [if_pos hc]
    constructor
    · constructor
      · rintro ⟨l, c, he⟩
        exact absurd he (by simp)
      · intro h
        exact absurd h hv
    · intro _
      rfl

theorem post_detail_visibility_witness :
    ((∃ liked cnt, (post_detail sampleDB "secret-notes" (some 7) false "").1
        = .rendered draftPost.slug liked cnt) ↔ can_view draftPost (some 7))
    ∧ (¬ can_view draftPost (some 7) →
        (post_detail sampleDB "secret-notes" (some 7) false "").1
          = .redirectPostList "This post is not published.") :=
  post_detail_visibility sampleDB "secret-notes" draftPost (some 7) (by decide)

/-- C3: for an authenticated user the like view toggles: an existing like is
deleted ("unliked"), a missing one is created ("liked"), the reported outcome
matches the resulting state, and toggling twice restores the original
like-state of the pair. -/
theorem like_toggle (db : BlogDB) (slug : String) (P : Post) (u : Nat)
    (hfind : db.posts.find? (fun p => p.slug == slug) = some P) :
    (likeState db P.id u →
        (like_post db slug (some u)).1 = .unliked P.slug
        ∧ ¬ likeState (like_post db slug (some u)).2 P.id u)
    ∧ (¬ likeState db P.id u →
        (like_post db slug (some u)).1 = .liked P.slug
        ∧ likeState (like_post db slug (some u)).2 P.id u)
    ∧ (likeState (like_post (like_post db slug (some u)).2 slug (some u)).2 P.id u
        ↔ likeState db P.id u) := by
  unfold likeState
  by_cases h : (P.id, u) ∈ db.likes
  · have h1 := like_post_mem db slug P u hfind h
    have hnot : (P.id, u) ∉ (like_post db slug (some u)).2.likes := by
      rw [h1]
      simp [List.mem_filter]
    have hfind2 : (like_post db slug (some u)).2.posts.find?
        (fun p => p.slug == slug) = some P := by
      rw [like_post_posts_unchanged]
      exact hfind
    have h2 := like_post_not_mem (like_post db slug (some u)).2 slug P u hfind2 hnot
    refine ⟨fun _ => ⟨by rw [h1], hnot⟩, fun hn => absurd h hn, ?_⟩
    rw [h2]
    simp [h]
  · have h1 := like_post_not_mem db slug P u hfind h
    have hyes : (P.id, u) ∈ (like_post db slug (some u)).2.likes := by
      rw [h1]
      simp
    have hfind2 : (like_post db slug (some u)).2.posts.find?
        (fun p => p.slug == slug) = some P := by
      rw [like_post_posts_unchanged]
      exact hfind
    have h2 := like_post_mem (like_post db slug (some u)).2 slug P u hfind2 hyes
    refine ⟨fun hy => absurd hy h, fun _ => ⟨by rw [h1], hyes⟩, ?_⟩
    rw [h2]
    simp [List.mem_filter, h]

theorem like_toggle_witness :
    (likeState sampleDB samplePost.id 9 →
        (like_post sampleDB "hello-world" (some 9)).1 = .unliked samplePost.slug
        ∧ ¬ likeState (like_post sampleDB "hello-world" (some 9)).2 samplePost.id 9)
    ∧ (¬ likeState sampleDB samplePost.id 9 →
        (like_post sampleDB "hello-world" (some 9)).1 = .liked samplePost.slug
        ∧ likeState (like_post sampleDB "hello-world" (some 9)).2 samplePost.id 9)
    ∧ (likeState (like_post (like_post sampleDB "hello-world" (some 9)).2
          "hello-world" (some 9)).2 samplePost.id 9
        ↔ likeState sampleDB samplePost.id 9) :=
  like_toggle sampleDB "hello-world" samplePost 9 (by decide)

/-- C4: the at-most-one-like-per-(post,user) invariant: the toggle view
preserves row distinctness (hence at most one row per pair), and the detail
view never changes the like table at all. -/
theorem like_uniqueness (db : BlogDB) (slug : String) (viewer : Viewer)
    (h : db.likes.Nodup) :
    (like_post db slug viewer).2.likes.Nodup
    ∧ (∀ p u, ((like_post db slug viewer).2.likes.filter
        (fun l => l = (p, u))).length ≤ 1)
    ∧ (∀ s2 v2 ip b, (post_detail db s2 v2 ip b).2.likes = db.likes) := by
  have hmain : (like_post db slug viewer).2.likes.Nodup := by
    rcases hf : db.posts.find? (fun p => p.slug == slug) with - | P
    · rw [like_post_no_post db slug viewer hf]
      exact h
    · rcases viewer with - | u
      · rw [like_post_anonymous db slug P hf]
        exact h
      · by_cases hm : (P.id, u) ∈ db.likes
        · rw [like_post_mem db slug P u hf hm]
          exact h.filter _
        · rw [like_post_not_mem db slug P u hf hm]
          show (db.likes ++ [(P.id, u)]).Nodup
          rw [List.nodup_append]
          refine ⟨h, List.nodup_singleton _, ?_⟩
          intro a ha hb
          rw [List.mem_singleton.mp hb] at ha
          exact hm ha
  exact ⟨hmain, fun p u => nodup_filter_eq_length hmain _,
    fun s2 v2 ip b => post_detail_likes_unchanged db s2 v2 ip b⟩

theorem like_uniqueness_witness :
    (like_post sampleDB "hello-world" (some 9)).2.likes.Nodup
    ∧ (∀ p u, ((like_post sampleDB "hello-world" (some 9)).2.likes.filter
        (fun l => l = (p, u))).length ≤ 1)
    ∧ (∀ s2 v2 ip b, (post_detail sampleDB s2 v2 ip b).2.likes = sampleDB.likes) :=
  like_uniqueness sampleDB "hello-world" (some 9) (by decide)

/-- C5 counterexample: an anonymous comment attempt (POST) on a draft post
does NOT receive the login redirect: the visibility check runs first, so the
outcome is the "not published" redirect to the post list. -/
theorem anon_comment_draft_counterexample :
    (post_detail sampleDB "secret-notes" none true "hi").1
      = .redirectPostList "This post is not published."
    ∧ (post_detail sampleDB "secret-notes" none true "hi").1
      ≠ .redirectLogin "Login required to comment." := by decide

/-- C5 amended: an anonymous ToggleLike on any existing post gets the login
redirect and leaves the store unchanged; an anonymous comment attempt never
changes the store, and gets the login redirect when the post is published (on
a draft it gets the not-available redirect instead). -/
theorem anon_interaction_amended (db : BlogDB) (slug body : String) (P : Post)
    (hfind : db.posts.find? (fun p => p.slug == slug) = some P) :
    like_post db slug none = (.redirectLogin "Login required to like posts.", db)
    ∧ (post_detail db slug none true body).2 = db
    ∧ (P.status = "published" →
        (post_detail db slug none true body).1
          = .redirectLogin "Login required to comment.") := by
  refine ⟨like_post_anonymous db slug P hfind, ?_, ?_⟩
  · unfold post_detail
    simp only [hfind]
    by_cases hc : P.status ≠ "published" ∧ (none : Viewer) ≠ some P.authorId
    · rw [if_pos hc]
    · rw [if_neg hc]
      simp
  · intro hpub
    unfold post_detail
    simp only [hfind]
    have hc : ¬(P.status ≠ "published" ∧ (none : Viewer) ≠ some P.authorId) :=
      fun hh => hh.1 hpub
    rw [if_neg hc]
    simp

theorem anon_interaction_amended_witness :
    like_post sampleDB "hello-world" none
      = (.redirectLogin "Login required to like posts.", sampleDB)
    ∧ (post_detail sampleDB "hello-world" none true "hi").2 = sampleDB
    ∧ (samplePost.status = "published" →
        (post_detail sampleDB "hello-world" none true "hi").1
          = .redirectLogin "Login required to comment.") :=
  anon_interaction_amended sampleDB "hello-world" "hi" samplePost (by decide)

/-- C6: the post listing and the tag listing only ever return published
posts, for every filter combination, while the dashboard applies no status
filter and returns exactly the current user's posts. -/
theorem listing_scope (db : BlogDB) (q : Option String) (tagSlug : String) (u : Nat) :
    (∀ P ∈ postListQueryset db q, P.status = "published")
    ∧ (∀ l, tagListQueryset db tagSlug = some l →
        ∀ P ∈ l, P.status = "published")
    ∧ (∀ P, P ∈ dashboardPosts db u ↔ P ∈ db.posts ∧ P.authorId = u) := by
  refine ⟨?_, ?_, ?_⟩
  · intro P hP
    have hbase : P ∈ db.posts.filter (fun p => p.status == "published") := by
      rcases q with - | query
      · rw [postListQueryset_none, mem_orderByCreatedDesc] at hP
        exact hP
      · rw [postListQueryset_some, mem_orderByCreatedDesc] at hP
        by_cases hq : query = ""
        · rw [if_pos hq] at hP
          exact hP
        · rw [if_neg hq] at hP
          exact List.mem_of_mem_filter hP
    exact eq_of_beq (List.mem_filter.mp hbase).2
  · intro l hl P hP
    unfold tagListQueryset at hl
    rcases hf : db.tags.find? (fun t => t.slug == tagSlug) with - | tag
    · rw [hf] at hl
      exact absurd hl (by simp)
    · rw [hf] at hl
      simp only [Option.some.injEq] at hl
      rw [← hl, mem_orderByCreatedDesc, List.mem_filter] at hP
      have h2 := hP.2
      simp only [Bool.and_eq_true] at h2
      exact eq_of_beq h2.1
  · intro P
    unfold dashboardPosts
    rw [mem_orderByCreatedDesc, List.mem_filter]
    simp

theorem listing_scope_witness :
    samplePost.status = "published"
    ∧ (draftPost ∈ dashboardPosts sampleDB 7
        ↔ draftPost ∈ sampleDB.posts ∧ draftPost.authorId = 7) :=
  ⟨(listing_scope sampleDB (some "lorem") "tech" 7).2.1 [samplePost] (by decide)
      samplePost (by decide),
   (listing_scope sampleDB (some "lorem") "tech" 7).2.2 draftPost⟩

/-- C7: for a stored published post, the search listing returns it exactly
when the query is a case-insensitive substring of its title or content; in
particular "Hello World" matches the queries "hello", "HELLO" and "wor". -/
theorem search_case_insensitive (db : BlogDB) (q : String) (P : Post)
    (hmem : P ∈ db.posts) (hpub : P.status = "published") :
    (P ∈ postListQueryset db (some q) ↔
        (lowerSubstring q P.title ∨ lowerSubstring q P.content))
    ∧ lowerSubstring "hello" "Hello World"
    ∧ lowerSubstring "HELLO" "Hello World"
    ∧ lowerSubstring "wor" "Hello World" := by
  refine ⟨?_, (icontains_iff _ _).mp (by decide), (icontains_iff _ _).mp (by decide),
    (icontains_iff _ _).mp (by decide)⟩
  rw [postListQueryset_some, mem_orderByCreatedDesc]
  by_cases hq : q = ""
  · rw [if_pos hq]
    subst hq
    constructor
    · intro _
      left
      exact ⟨[], lowerData P.title, rfl⟩
    · intro _
      rw [List.mem_filter]
      exact ⟨hmem, by simp [hpub]⟩
  · rw [if_neg hq, List.mem_filter, List.mem_filter]
    simp only [Bool.or_eq_true, icontains_iff]
    constructor
    · rintro ⟨-, hic⟩
      exact hic
    · intro hsub
      exact ⟨⟨hmem, by simp [hpub]⟩, hsub⟩

theorem search_case_insensitive_witness :
    (samplePost ∈ postListQueryset sampleDB (some "HELLO") ↔
        (lowerSubstring "HELLO" samplePost.title
          ∨ lowerSubstring "HELLO" samplePost.content))
    ∧ lowerSubstring "hello" "Hello World"
    ∧ lowerSubstring "HELLO" "Hello World"
    ∧ lowerSubstring "wor" "Hello World" :=
  search_case_insensitive sampleDB "HELLO" samplePost (by decide) (by decide)

/-- A post whose title contains no slug-safe character, so its slug
computes to the empty string. -/
def bangPost : Post := ⟨5, "!!!", "", 7, "body", "draft", 30, []⟩

/-- The empty store. -/
def emptyDB : BlogDB := ⟨[], [], [], []⟩

/-- C8 counterexample: a post titled "!!!" is assigned the empty slug on
first save, and because the empty string is falsy the next save recomputes
the slug (now probing against the post's own stored row) and changes it to
"-2" — so an assigned slug is not always left unchanged by later saves. -/
theorem slug_recompute_counterexample :
    ((postSave emptyDB bangPost).map (fun r => r.1.slug) = some "")
    ∧ (((postSave emptyDB bangPost).bind (fun r => postSave r.2 r.1)).map
        (fun r => r.1.slug) = some "-2") := by decide

/-- C8 amended: for every post whose assigned slug is non-empty (every title
with at least one slug-safe character), any later save skips the slug code
entirely and leaves the post — in particular its slug — unchanged; only the
empty slug is ever recomputed. -/
theorem slug_immutable_amended (db : BlogDB) (p : Post) (h : p.slug ≠ "") :
    (postSave db p).map (fun r => r.1.slug) = some p.slug := by
  unfold postSave
  rw [if_neg h]
  rfl

theorem slug_immutable_amended_witness :
    (postSave sampleDB samplePost).map (fun r => r.1.slug) = some samplePost.slug :=
  slug_immutable_amended sampleDB samplePost (by decide)

/-- C9: every listing variant — post list (with or without a query), tag
list, dashboard, recent-posts tag — is ordered newest first (descending
creation time). -/
theorem listing_ordering (db : BlogDB) (q : Option String) (tagSlug : String)
    (u limit : Nat) (l : List Post)
    (hl : tagListQueryset db tagSlug = some l) :
    List.Sorted newestFirst (postListQueryset db q)
    ∧ List.Sorted newestFirst l
    ∧ List.Sorted newestFirst (dashboardPosts db u)
    ∧ List.Sorted newestFirst (recent_posts db limit) := by
  refine ⟨?_, ?_, ?_, ?_⟩
  · unfold postListQueryset
    exact sorted_orderByCreatedDesc _
  · unfold tagListQueryset at hl
    rcases hf : db.tags.find? (fun t => t.slug == tagSlug) with - | tag
    · rw [hf] at hl
      exact absurd hl (by simp)
    · rw [hf] at hl
      simp only [Option.some.injEq] at hl
      rw [← hl]
      exact sorted_orderByCreatedDesc _
  · exact sorted_orderByCreatedDesc _
  · unfold recent_posts
    exact List.Pairwise.sublist (List.take_sublist _ _) (sorted_orderByCreatedDesc _)

theorem listing_ordering_witness :
    List.Sorted newestFirst (postListQueryset sampleDB none)
    ∧ List.Sorted newestFirst [samplePost]
    ∧ List.Sorted newestFirst (dashboardPosts sampleDB 7)
    ∧ List.Sorted newestFirst (recent_posts sampleDB 3) :=
  listing_ordering sampleDB none "tech" 7 3 [samplePost] (by decide)

/-- C10: a slug matching no post yields the NotFound outcome from both the
detail view and the like view, for every viewer; in particular the like
view's post lookup precedes its authentication check, so an anonymous
request on a nonexistent slug gets NotFound rather than the login
redirect. -/
theorem missing_slug_not_found (db : BlogDB) (slug body : String)
    (viewer : Viewer) (ip : Bool)
    (h : db.posts.find? (fun p => p.slug == slug) = none) :
    like_post db slug viewer = (.notFound, db)
    ∧ post_detail db slug viewer ip body = (.notFound, db) :=
  ⟨like_post_no_post db slug viewer h, post_detail_no_post db slug viewer ip body h⟩

theorem missing_slug_not_found_witness :
    like_post sampleDB "no-such-slug" none = (.notFound, sampleDB)
    ∧ post_detail sampleDB "no-such-slug" none true "hi" = (.notFound, sampleDB) :=
  missing_slug_not_found sampleDB "no-such-slug" "hi" none true (by decide)

end Blog
